import Mathlib

/-!
Verification development for the face-swap / face-restoration backend
(`model_manager.py`, `face_swapper.py`, `face_restoration.py`).

The embedding models images as rational-valued pixel grids, the external
runtime operators (ONNX models, OpenCV filters) as explicit environment
parameters, and the manager's lazy-loading state machine as explicit state
passing with a counter of underlying load attempts.
-/

namespace DeepfakeLivecam

/-- A dense H x W x 3 pixel buffer.  Pixel values are modelled as rationals;
the uint8 saturation/rounding of the runtime is abstracted as exact rational
arithmetic (the spec's "lossless-copy tolerance"). -/
@[ext]
structure Image where
  h : Nat
  w : Nat
  px : Nat → Nat → Fin 3 → ℚ

/-- Spatial shape of an image, `(height, width)` as in `ndarray.shape`. -/
def Image.shape (img : Image) : Nat × Nat := (img.h, img.w)

/-- Model of `cv2.addWeighted(a, alpha, b, beta, gamma)`: the per-pixel linear
combination `alpha*a + beta*b + gamma`, carrying the first operand's shape. -/
def addWeighted (a : Image) (alpha : ℚ) (b : Image) (beta : ℚ) (gamma : ℚ) : Image :=
  ⟨a.h, a.w, fun i j c => alpha * a.px i j c + beta * b.px i j c + gamma⟩

/-- Compute backends distinguished by `ModelManager._get_best_device`. -/
inductive Device
  | cuda
  | mps
  | cpu
deriving DecidableEq

/-- `ModelManager._get_best_device`: prefer CUDA, else MPS, else CPU, as a
function of which torch backends report availability. -/
def get_best_device (cudaAvailable mpsAvailable : Bool) : Device :=
  if cudaAvailable then .cuda
  else if mpsAvailable then .mps
  else .cpu

/-- `ModelManager._get_execution_providers`: ONNX Runtime provider list
derived from the resolved device. -/
def get_execution_providers : Device → List String
  | .cuda => ["CUDAExecutionProvider", "CPUExecutionProvider"]
  | .mps => ["CPUExecutionProvider"]
  | .cpu => ["CPUExecutionProvider"]

/-- `ModelManager._get_ctx_id`: InsightFace context id, `0` for CUDA and `-1`
otherwise. -/
def get_ctx_id : Device → Int
  | .cuda => 0
  | _ => -1

/-- Claim C8: device selection prefers CUDA, then MPS, then CPU, and context
ids are as specified; CUDA gets its backend-specific provider with the CPU
provider appended and the CPU backend gets a CPU-only list.  However the MPS
backend — selected as the secondary accelerated backend — receives a CPU-only
provider list with no backend-specific provider at all, contradicting the
claim (and the code's own log message announcing a CoreML provider with CPU
fallback). -/
theorem C8_device_providers_mps_divergence :
    get_best_device true true = .cuda ∧
    get_best_device true false = .cuda ∧
    get_best_device false true = .mps ∧
    get_best_device false false = .cpu ∧
    get_execution_providers .cuda = ["CUDAExecutionProvider", "CPUExecutionProvider"] ∧
    get_execution_providers .cpu = ["CPUExecutionProvider"] ∧
    get_ctx_id .cuda = 0 ∧
    get_ctx_id .mps = -1 ∧
    get_ctx_id .cpu = -1 ∧
    get_execution_providers .mps = ["CPUExecutionProvider"] ∧
    ¬ ∃ p ∈ get_execution_providers .mps, p ≠ "CPUExecutionProvider" := by
  refine ⟨rfl, rfl, rfl, rfl, rfl, rfl, rfl, rfl, rfl, rfl, ?_⟩
  rintro ⟨p, hp, hne⟩
  simp [get_execution_providers] at hp
  exact hne hp

/-- Opaque handle to a loaded inference artifact, distinguished by identity. -/
structure Handle where
  id : Nat
deriving DecidableEq

/-- Exception kind raised by stage 1 of `get_face_analysis`: the source
dispatches on `AssertionError` versus any other exception. -/
inductive FaErrKind
  | assertion
  | other
deriving DecidableEq

/-- Outcomes of the underlying loader calls inside `get_face_analysis`:
stage 1 is `FaceAnalysis` with the full provider list, `stage2assert` is the
CPU retry with a reduced module set taken on `AssertionError`, `stage2other`
is the CPU retry with all modules taken on any other exception. -/
structure FaEnv where
  stage1 : Except FaErrKind Handle
  stage2assert : Except Unit Handle
  stage2other : Except Unit Handle

/-- One attempted `FaceAnalysis` construction: the provider list passed and
the `allowed_modules` argument (`none` means all modules). -/
structure FaAttempt where
  providers : List String
  allowedModules : Option (List String)
deriving DecidableEq

/-- `ModelManager.get_face_analysis`'s load cascade: try the full provider
list; on `AssertionError` retry with CPU-only providers and the reduced
module set `['detection', 'recognition']`; on any other exception retry with
CPU-only providers and all modules; a failed retry re-raises.  Returns the
result together with the list of attempted constructions in order. -/
def loadFaceAnalysis (d : Device) (env : FaEnv) :
    Except Unit Handle × List FaAttempt :=
  let a1 : FaAttempt := ⟨get_execution_providers d, none⟩
  match env.stage1 with
  | .ok hnd => (.ok hnd, [a1])
  | .error .assertion =>
    let a2 : FaAttempt := ⟨["CPUExecutionProvider"], some ["detection", "recognition"]⟩
    match env.stage2assert with
    | .ok hnd => (.ok hnd, [a1, a2])
    | .error _ => (.error (), [a1, a2])
  | .error .other =>
    let a2 : FaAttempt := ⟨["CPUExecutionProvider"], none⟩
    match env.stage2other with
    | .ok hnd => (.ok hnd, [a1, a2])
    | .error _ => (.error (), [a1, a2])

/-- The three loader invocations `get_face_swapper` can make, in source
order: remote acquisition with the full provider list, remote acquisition
with CPU-only providers, and loading the known local file path. -/
inductive SwStage
  | remoteFull
  | remoteCpu
  | localCpu
deriving DecidableEq

/-- Outcomes of the underlying loader calls inside `get_face_swapper`,
together with whether the local model file exists on disk. -/
structure SwEnv where
  stage1 : Except Unit Handle
  stage2 : Except Unit Handle
  localExists : Bool
  stage3 : Except Unit Handle

/-- `ModelManager.get_face_swapper`'s load cascade: try download with the
full provider list; on failure retry download with CPU-only providers; on a
second failure load the local file if it exists, else raise.  Returns the
result together with the stages attempted in order. -/
def loadFaceSwapper (env : SwEnv) : Except Unit Handle × List SwStage :=
  match env.stage1 with
  | .ok hnd => (.ok hnd, [.remoteFull])
  | .error _ =>
    match env.stage2 with
    | .ok hnd => (.ok hnd, [.remoteFull, .remoteCpu])
    | .error _ =>
      if env.localExists then
        match env.stage3 with
        | .ok hnd => (.ok hnd, [.remoteFull, .remoteCpu, .localCpu])
        | .error _ => (.error (), [.remoteFull, .remoteCpu, .localCpu])
      else
        (.error (), [.remoteFull, .remoteCpu])

/-- Loader outcomes for all three roles.  `gf` is the outcome of the single
`try` block of `get_gfpgan_restorer` (local-path/URL choice, background
upsampler and `GFPGANer` construction collapsed into one attempt, as in the
source where one `except` covers the whole block). -/
structure LoadEnv where
  fa : FaEnv
  sw : SwEnv
  gf : Except Unit Handle

/-- The manager's three lazily-populated handle slots, mirroring
`self.face_analysis`, `self.face_swapper`, `self.gfpgan_restorer`. -/
structure MMState where
  face_analysis : Option Handle
  face_swapper : Option Handle
  gfpgan_restorer : Option Handle
deriving DecidableEq

/-- Manager state right after `__init__`: all three slots are `None`. -/
def MMState.init : MMState := ⟨none, none, none⟩

/-- `ModelManager.get_face_analysis`: return the cached handle if present,
otherwise run the load cascade, caching on success.  The third component
counts underlying load-cascade executions (0 or 1). -/
def get_face_analysis (d : Device) (env : LoadEnv) (s : MMState) :
    Except Unit Handle × MMState × Nat :=
  match s.face_analysis with
  | some hnd => (.ok hnd, s, 0)
  | none =>
    match (loadFaceAnalysis d env.fa).1 with
    | .ok hnd => (.ok hnd, { s with face_analysis := some hnd }, 1)
    | .error e => (.error e, s, 1)

/-- `ModelManager.get_face_swapper`: return the cached handle if present,
otherwise run the load cascade, caching on success. -/
def get_face_swapper (env : LoadEnv) (s : MMState) :
    Except Unit Handle × MMState × Nat :=
  match s.face_swapper with
  | some hnd => (.ok hnd, s, 0)
  | none =>
    match (loadFaceSwapper env.sw).1 with
    | .ok hnd => (.ok hnd, { s with face_swapper := some hnd }, 1)
    | .error e => (.error e, s, 1)

/-- `ModelManager.get_gfpgan_restorer`: return the cached handle if present,
otherwise attempt the load; on failure the slot is set to `None` and `None`
(the "unavailable" sentinel) is returned instead of raising. -/
def get_gfpgan_restorer (env : LoadEnv) (s : MMState) :
    Option Handle × MMState × Nat :=
  match s.gfpgan_restorer with
  | some hnd => (some hnd, s, 0)
  | none =>
    match env.gf with
    | .ok hnd => (some hnd, { s with gfpgan_restorer := some hnd }, 1)
    | .error _ => (none, { s with gfpgan_restorer := none }, 1)

/-- Claim C1 (amended): once a get call has stored a handle for a role,
every subsequent call returns that same handle and performs no further load;
a call that finds the slot empty performs exactly one load-cascade execution,
and a successful one stores its handle so a repeat call loads zero times.
But a failed attempt stores nothing (the restorer slot is set back to `None`),
so later calls re-attempt the load. -/
theorem C1_lazy_load_idempotent_once_stored (d : Device) (env : LoadEnv)
    (s : MMState) (hnd : Handle) :
    (s.face_analysis = some hnd → get_face_analysis d env s = (.ok hnd, s, 0)) ∧
    (s.face_swapper = some hnd → get_face_swapper env s = (.ok hnd, s, 0)) ∧
    (s.gfpgan_restorer = some hnd → get_gfpgan_restorer env s = (some hnd, s, 0)) ∧
    (s.face_analysis = none → ∀ h2, (loadFaceAnalysis d env.fa).1 = .ok h2 →
      get_face_analysis d env s = (.ok h2, { s with face_analysis := some h2 }, 1) ∧
      get_face_analysis d env { s with face_analysis := some h2 } =
        (.ok h2, { s with face_analysis := some h2 }, 0)) ∧
    (s.face_swapper = none → ∀ h2, (loadFaceSwapper env.sw).1 = .ok h2 →
      get_face_swapper env s = (.ok h2, { s with face_swapper := some h2 }, 1) ∧
      get_face_swapper env { s with face_swapper := some h2 } =
        (.ok h2, { s with face_swapper := some h2 }, 0)) ∧
    (s.gfpgan_restorer = none → ∀ h2, env.gf = .ok h2 →
      get_gfpgan_restorer env s = (some h2, { s with gfpgan_restorer := some h2 }, 1) ∧
      get_gfpgan_restorer env { s with gfpgan_restorer := some h2 } =
        (some h2, { s with gfpgan_restorer := some h2 }, 0)) ∧
    (s.gfpgan_restorer = none → env.gf = .error () →
      get_gfpgan_restorer env s = (none, { s with gfpgan_restorer := none }, 1)) := by
  refine ⟨?_, ?_, ?_, ?_, ?_, ?_, ?_⟩
  · intro h; simp [get_face_analysis, h]
  · intro h; simp [get_face_swapper, h]
  · intro h; simp [get_gfpgan_restorer, h]
  · intro h h2 hload
    constructor
    · simp [get_face_analysis, h, hload]
    · simp [get_face_analysis]
  · intro h h2 hload
    constructor
    · simp [get_face_swapper, h, hload]
    · simp [get_face_swapper]
  · intro h h2 hload
    constructor
    · simp [get_gfpgan_restorer, h, hload]
    · simp [get_gfpgan_restorer]
  · intro h hload
    simp [get_gfpgan_restorer, h, hload]

/-- Loader environment in which the restorer's single try block always
fails; the detector and swapper load fine. -/
def c1FailEnv : LoadEnv :=
  { fa := ⟨.ok ⟨1⟩, .ok ⟨1⟩, .ok ⟨1⟩⟩
    sw := ⟨.ok ⟨2⟩, .ok ⟨2⟩, true, .ok ⟨2⟩⟩
    gf := .error () }

/-- Claim C1 counterexample: with the restorer's load failing, two
successive `get_gfpgan_restorer` calls from the initial state each execute
the underlying load (the failure caches nothing), so two loads run for one
role in one process lifetime — refuting "at most one load executes per role
per process lifetime". -/
theorem C1_counterexample :
    ¬ ((get_gfpgan_restorer c1FailEnv MMState.init).2.2 +
       (get_gfpgan_restorer c1FailEnv
         (get_gfpgan_restorer c1FailEnv MMState.init).2.1).2.2 ≤ 1) := by
  decide

/-- Loader environment in which every role loads successfully at stage 1. -/
def c1OkEnv : LoadEnv :=
  { fa := ⟨.ok ⟨1⟩, .ok ⟨1⟩, .ok ⟨1⟩⟩
    sw := ⟨.ok ⟨2⟩, .ok ⟨2⟩, true, .ok ⟨2⟩⟩
    gf := .ok ⟨3⟩ }

/-- Concrete instantiation of the amended C1 theorem: cached handles are
returned load-free, empty slots trigger exactly one load that is not
repeated once the handle is stored, and a failed restorer load caches
nothing. -/
theorem C1_witness :
    get_face_analysis .cpu c1OkEnv ⟨some ⟨5⟩, some ⟨6⟩, some ⟨7⟩⟩ =
      (.ok ⟨5⟩, ⟨some ⟨5⟩, some ⟨6⟩, some ⟨7⟩⟩, 0) ∧
    get_face_swapper c1OkEnv ⟨some ⟨6⟩, some ⟨6⟩, some ⟨7⟩⟩ =
      (.ok ⟨6⟩, ⟨some ⟨6⟩, some ⟨6⟩, some ⟨7⟩⟩, 0) ∧
    get_gfpgan_restorer c1OkEnv ⟨some ⟨5⟩, some ⟨6⟩, some ⟨7⟩⟩ =
      (some ⟨7⟩, ⟨some ⟨5⟩, some ⟨6⟩, some ⟨7⟩⟩, 0) ∧
    get_face_analysis .cpu c1OkEnv MMState.init = (.ok ⟨1⟩, ⟨some ⟨1⟩, none, none⟩, 1) ∧
    get_face_analysis .cpu c1OkEnv ⟨some ⟨1⟩, none, none⟩ =
      (.ok ⟨1⟩, ⟨some ⟨1⟩, none, none⟩, 0) ∧
    get_face_swapper c1OkEnv MMState.init = (.ok ⟨2⟩, ⟨none, some ⟨2⟩, none⟩, 1) ∧
    get_gfpgan_restorer c1OkEnv MMState.init = (some ⟨3⟩, ⟨none, none, some ⟨3⟩⟩, 1) ∧
    get_gfpgan_restorer c1FailEnv MMState.init = (none, MMState.init, 1) := by
  have hcached := C1_lazy_load_idempotent_once_stored .cpu c1OkEnv
    ⟨some ⟨5⟩, some ⟨6⟩, some ⟨7⟩⟩ ⟨5⟩
  have hcachedSw := C1_lazy_load_idempotent_once_stored .cpu c1OkEnv
    ⟨some ⟨6⟩, some ⟨6⟩, some ⟨7⟩⟩ ⟨6⟩
  have hcachedGf := C1_lazy_load_idempotent_once_stored .cpu c1OkEnv
    ⟨some ⟨5⟩, some ⟨6⟩, some ⟨7⟩⟩ ⟨7⟩
  have hinit := C1_lazy_load_idempotent_once_stored .cpu c1OkEnv MMState.init ⟨0⟩
  have hfail := C1_lazy_load_idempotent_once_stored .cpu c1FailEnv MMState.init ⟨0⟩
  exact ⟨hcached.1 rfl, hcachedSw.2.1 rfl, hcachedGf.2.2.1 rfl,
    (hinit.2.2.2.1 rfl ⟨1⟩ rfl).1, (hinit.2.2.2.1 rfl ⟨1⟩ rfl).2,
    (hinit.2.2.2.2.1 rfl ⟨2⟩ rfl).1, (hinit.2.2.2.2.2.1 rfl ⟨3⟩ rfl).1,
    hfail.2.2.2.2.2.2 rfl rfl⟩

/-- Claim C2: the swapper's stage 2 (CPU-only download) is attempted exactly
when stage 1 raised; stage 3 (local file) is attempted only when stages 1
and 2 both raised; when stage 1 fails and stage 2 succeeds, the stage-2
handle is returned and stage 3 is never attempted.  For the detector, a
second construction is attempted exactly when stage 1 raised; every retry
uses CPU-only providers, the first attempt uses the full provider list and
the `AssertionError` retry reduces the module set. -/
theorem C2_fallback_cascade_order (d : Device) (env : SwEnv) (fenv : FaEnv) :
    (SwStage.remoteCpu ∈ (loadFaceSwapper env).2 ↔ ∃ e, env.stage1 = .error e) ∧
    (SwStage.localCpu ∈ (loadFaceSwapper env).2 →
      (∃ e, env.stage1 = .error e) ∧ ∃ e, env.stage2 = .error e) ∧
    (∀ e hnd, env.stage1 = .error e → env.stage2 = .ok hnd →
      (loadFaceSwapper env).1 = .ok hnd ∧
      SwStage.localCpu ∉ (loadFaceSwapper env).2) ∧
    (((loadFaceAnalysis d fenv).2.length = 2 ↔ ∃ e, fenv.stage1 = .error e) ∧
      ∀ a ∈ ((loadFaceAnalysis d fenv).2).tail,
        a.providers = ["CPUExecutionProvider"]) ∧
    ((loadFaceAnalysis d fenv).2.head? = some ⟨get_execution_providers d, none⟩ ∧
      (fenv.stage1 = .error .assertion →
        (loadFaceAnalysis d fenv).2 = [⟨get_execution_providers d, none⟩,
          ⟨["CPUExecutionProvider"], some ["detection", "recognition"]⟩])) := by
  obtain ⟨s1, s2, le, s3⟩ := env
  obtain ⟨f1, f2a, f2o⟩ := fenv
  refine ⟨?_, ?_, ?_, ?_, ?_⟩
  · cases s1 <;> cases s2 <;> cases le <;> cases s3 <;> simp [loadFaceSwapper]
  · cases s1 <;> cases s2 <;> cases le <;> cases s3 <;> simp [loadFaceSwapper]
  · intro e hnd h1 h2
    cases h1; cases h2
    simp [loadFaceSwapper]
  · constructor
    · rcases f1 with k | hnd
      · cases k <;> cases f2a <;> cases f2o <;> simp [loadFaceAnalysis]
      · simp [loadFaceAnalysis]
    · rcases f1 with k | hnd
      · cases k <;> cases f2a <;> cases f2o <;> simp [loadFaceAnalysis]
      · simp [loadFaceAnalysis]
  · constructor
    · rcases f1 with k | hnd
      · cases k <;> cases f2a <;> cases f2o <;> simp [loadFaceAnalysis]
      · simp [loadFaceAnalysis]
    · intro h1
      cases h1
      cases f2a <;> simp [loadFaceAnalysis]

/-- Concrete instantiation of C2: stage 1 of the swapper fails, stage 2
succeeds — the stage-2 handle is returned and the local-file stage is never
attempted; the detector's `AssertionError` retry is CPU-only with the
reduced module set. -/
theorem C2_witness :
    (loadFaceSwapper ⟨.error (), .ok ⟨2⟩, false, .error ()⟩).1 = .ok ⟨2⟩ ∧
    SwStage.localCpu ∉ (loadFaceSwapper ⟨.error (), .ok ⟨2⟩, false, .error ()⟩).2 ∧
    (loadFaceAnalysis .cpu ⟨.error .assertion, .ok ⟨1⟩, .ok ⟨1⟩⟩).2 =
      [⟨["CPUExecutionProvider"], none⟩,
        ⟨["CPUExecutionProvider"], some ["detection", "recognition"]⟩] := by
  have h := C2_fallback_cascade_order .cpu ⟨.error (), .ok ⟨2⟩, false, .error ()⟩
    ⟨.error .assertion, .ok ⟨1⟩, .ok ⟨1⟩⟩
  exact ⟨(h.2.2.1 () ⟨2⟩ rfl rfl).1, (h.2.2.1 () ⟨2⟩ rfl rfl).2, h.2.2.2.2.2 rfl⟩

/-- An integer bounding box `(x1, y1, x2, y2)` as produced by
`face.bbox.astype(int)`. -/
structure Box where
  x1 : Int
  y1 : Int
  x2 : Int
  y2 : Int
deriving DecidableEq

/-- A detected face: its bounding box plus an opaque identity standing for
the embedding/landmark payload the models consume. -/
structure Face where
  bbox : Box
  ident : Nat
deriving DecidableEq

/-- The box clipping of `_apply_color_correction`:
`x1 = max(0, x1)`, `y1 = max(0, y1)`, `x2 = min(width, x2)`,
`y2 = min(height, y2)`. -/
def clipBbox (orig : Image) (b : Box) : Box :=
  ⟨max 0 b.x1, max 0 b.y1, min (orig.w : Int) b.x2, min (orig.h : Int) b.y2⟩

/-- `ndarray.size` of the H x W x 3 slice `img[y1:y2, x1:x2]`. -/
def Box.regionSize (b : Box) : Int :=
  (b.y2 - b.y1) * (b.x2 - b.x1) * 3

/-- Environment for the non-degenerate branch of `_apply_color_correction`:
`correctRegion swapped orig result box` stands for the mean/std colour
transfer, radial mask, Gaussian blur of the mask and in-place composite into
`result` over `box` (numpy/cv2 floating-point arithmetic kept opaque). -/
structure CCEnv where
  correctRegion : Image → Image → Image → Box → Image

/-- One iteration of the face loop in `FaceSwapper._apply_color_correction`:
clip the box; `continue` (leave `result` untouched) when the clipped box is
degenerate or either region is empty; otherwise recolor and composite. -/
def colorCorrectStep (env : CCEnv) (swapped_img original_img : Image)
    (result : Image) (face : Face) : Image :=
  let b := clipBbox original_img face.bbox
  if b.x2 ≤ b.x1 ∨ b.y2 ≤ b.y1 then result
  else if b.regionSize = 0 then result
  else env.correctRegion swapped_img original_img result b

/-- `FaceSwapper._apply_color_correction`: start from a copy of the swapped
image and fold the per-face correction over the detected faces. -/
def apply_color_correction (env : CCEnv) (swapped_img original_img : Image)
    (faces : List Face) : Image :=
  faces.foldl (colorCorrectStep env swapped_img original_img) swapped_img

/-- Which input image a no-face error refers to. -/
inductive Side
  | source
  | target
deriving DecidableEq

/-- The `ValueError`s raised by `FaceSwapper.swap_face`, re-raised by its
outer handler and thus surfaced to the caller. -/
inductive SwapError
  | noFace (side : Side)
deriving DecidableEq

/-- Environment of external operators consumed by `swap_face`: the detector
(`self.app.get`), the swap operator (`self.swapper.get` with
`paste_back=True`) and the colour-correction internals. -/
structure SwapEnv where
  detect : Image → List Face
  swapOp : Image → Face → Face → Image
  cc : CCEnv

/-- The target-face loop of `swap_face`: fold the swap operator over the
detected target faces, starting from a copy of the target image, always with
the same source face; the second component counts operator invocations. -/
def composite (swapOp : Image → Face → Face → Image) (source_face : Face)
    (init : Image) (faces : List Face) : Image × Nat :=
  faces.foldl (fun acc tf => (swapOp acc.1 tf source_face, acc.2 + 1)) (init, 0)

/-- The swapped-and-optionally-colour-corrected buffer of `swap_face`,
before the final global mix. -/
def compositedResult (env : SwapEnv) (source_face : Face) (target_img : Image)
    (target_faces : List Face) (color_correction : Bool) : Image :=
  let r := (composite env.swapOp source_face target_img target_faces).1
  if color_correction then apply_color_correction env.cc r target_img target_faces
  else r

/-- The final global mix of `swap_face`:
`cv2.addWeighted(target, 1 - blend, result, blend, 0)`, applied only when
`blend_strength < 1.0`. -/
def finalBlend (target_img result : Image) (blend_strength : ℚ) : Image :=
  if blend_strength < 1 then
    addWeighted target_img (1 - blend_strength) result blend_strength 0
  else result

/-- `FaceSwapper.swap_face`: detect faces on both inputs, raise on a faceless
source (checked first) or target, take the first source face as identity,
swap every target face into a running buffer, optionally colour-correct,
then apply the global blend mix. -/
def swap_face (env : SwapEnv) (source_img target_img : Image)
    (blend_strength : ℚ) (color_correction : Bool) : Except SwapError Image :=
  let source_faces := env.detect source_img
  let target_faces := env.detect target_img
  match source_faces with
  | [] => .error (.noFace .source)
  | source_face :: _ =>
    if target_faces.isEmpty then .error (.noFace .target)
    else
      .ok (finalBlend target_img
        (compositedResult env source_face target_img target_faces color_correction)
        blend_strength)

/-- The instrumented fold of `composite` computes the plain fold of the swap
operator and counts one invocation per face. -/
theorem composite_foldl_spec (swapOp : Image → Face → Face → Image)
    (sf : Face) (p : Image × Nat) (faces : List Face) :
    faces.foldl (fun acc tf => (swapOp acc.1 tf sf, acc.2 + 1)) p =
      (faces.foldl (fun r tf => swapOp r tf sf) p.1, p.2 + faces.length) := by
  induction faces generalizing p with
  | nil => simp
  | cons a as ih =>
    simp only [List.foldl_cons]
    rw [ih]
    simp only [List.length_cons, Prod.mk.injEq]
    exact ⟨trivial, by omega⟩

/-- Mixing with weights `1` and `0` returns the first image unchanged. -/
theorem addWeighted_left_unit (a b : Image) : addWeighted a 1 b 0 0 = a := by
  ext i j c
  · rfl
  · rfl
  · simp [addWeighted]

/-- Claim C4: swapping an image pair where the detector finds no source face
fails with the source-side error (regardless of the target, so empty-source
takes precedence); with at least one source face and no target face it fails
with the target-side error.  The error is the returned value — surfaced, not
retried. -/
theorem C4_no_face_detected (env : SwapEnv) (s t : Image) (b : ℚ) (cc : Bool) :
    (env.detect s = [] → swap_face env s t b cc = .error (.noFace .source)) ∧
    (env.detect s ≠ [] → env.detect t = [] →
      swap_face env s t b cc = .error (.noFace .target)) := by
  constructor
  · intro h
    simp [swap_face, h]
  · intro hs ht
    obtain ⟨f, l, hfl⟩ := List.exists_cons_of_ne_nil hs
    simp [swap_face, hfl, ht]

/-- A face and images used to instantiate the swap theorems: `img1` is a
1 x 1 black image in which the toy detector finds `face0`; `imgEmpty` has
zero height so the toy detector finds nothing. -/
def face0 : Face := ⟨⟨0, 0, 1, 1⟩, 0⟩

def img1 : Image := ⟨1, 1, fun _ _ _ => 0⟩

def imgEmpty : Image := ⟨0, 0, fun _ _ _ => 0⟩

def ccEnv0 : CCEnv := ⟨fun _ _ r _ => r⟩

def swapEnv0 : SwapEnv :=
  ⟨fun img => if img.h = 0 then [] else [face0], fun r _ _ => r, ccEnv0⟩

/-- Concrete instantiation of C4: a faceless source raises the source-side
error, a faceless target with a valid source raises the target-side error. -/
theorem C4_witness :
    swap_face swapEnv0 imgEmpty img1 (4/5) true = .error (.noFace .source) ∧
    swap_face swapEnv0 img1 imgEmpty (4/5) true = .error (.noFace .target) :=
  ⟨(C4_no_face_detected swapEnv0 imgEmpty img1 (4/5) true).1 rfl,
   (C4_no_face_detected swapEnv0 img1 imgEmpty (4/5) true).2 (by decide) rfl⟩

/-- Claim C5: with `blend_strength = 0` the result is the original target
pixel for pixel; with `blend_strength = 1` the mix branch is skipped and the
composited buffer is returned unmixed; for every `b ≤ 1` the returned pixels
satisfy `out = (1-b)*target + b*composited`. -/
theorem C5_blend_strength_boundary (env : SwapEnv) (s t : Image) (cc : Bool)
    (f : Face) (l : List Face) (g : Face) (m : List Face)
    (hs : env.detect s = f :: l) (ht : env.detect t = g :: m) :
    swap_face env s t 0 cc = .ok t ∧
    swap_face env s t 1 cc = .ok (compositedResult env f t (env.detect t) cc) ∧
    (∀ b : ℚ, b ≤ 1 → ∀ out, swap_face env s t b cc = .ok out →
      ∀ i j ch, out.px i j ch =
        (1 - b) * t.px i j ch +
          b * (compositedResult env f t (env.detect t) cc).px i j ch) := by
  refine ⟨?_, ?_, ?_⟩
  · simp only [swap_face, hs, ht, List.isEmpty_cons, Bool.false_eq_true, if_false,
      finalBlend, zero_lt_one, if_true, sub_zero, Except.ok.injEq]
    rw [← ht]
    exact addWeighted_left_unit _ _
  · simp [swap_face, hs, ht, finalBlend]
  · intro b hb out hout i j ch
    simp only [swap_face, hs, ht, List.isEmpty_cons, Bool.false_eq_true, if_false,
      Except.ok.injEq] at hout
    rw [← ht] at hout
    by_cases hb1 : b < 1
    · rw [← hout]
      simp [finalBlend, hb1, addWeighted]
    · have hbe : b = 1 := le_antisymm hb (not_lt.mp hb1)
      subst hbe
      rw [← hout]
      simp [finalBlend, addWeighted]

/-- Concrete instantiation of C5: zero blend returns the target unchanged,
unit blend returns the composited buffer unmixed. -/
theorem C5_witness :
    swap_face swapEnv0 img1 img1 0 false = .ok img1 ∧
    swap_face swapEnv0 img1 img1 1 false =
      .ok (compositedResult swapEnv0 face0 img1 (swapEnv0.detect img1) false) :=
  ⟨(C5_blend_strength_boundary swapEnv0 img1 img1 false face0 [] face0 [] rfl rfl).1,
   (C5_blend_strength_boundary swapEnv0 img1 img1 false face0 [] face0 [] rfl rfl).2.1⟩

/-- Claim C6: the swap operator is invoked exactly once per detected target
face; the invocations fold sequentially over a running buffer initialized as
the (copy of the) target image, each using the constant source face, which
`swap_face` takes as the head of the detector's output on the source. -/
theorem C6_multi_face_compositing (env : SwapEnv) (s t : Image) (b : ℚ)
    (cc : Bool) (f : Face) (l : List Face) (g : Face) (m : List Face)
    (hs : env.detect s = f :: l) (ht : env.detect t = g :: m) :
    (composite env.swapOp f t (env.detect t)).2 = (env.detect t).length ∧
    (composite env.swapOp f t (env.detect t)).1 =
      (env.detect t).foldl (fun r tf => env.swapOp r tf f) t ∧
    swap_face env s t b cc = .ok (finalBlend t
      (compositedResult env f t (env.detect t) cc) b) := by
  refine ⟨?_, ?_, ?_⟩
  · simp [composite, composite_foldl_spec]
  · simp [composite, composite_foldl_spec]
  · simp only [swap_face, hs, ht, List.isEmpty_cons, Bool.false_eq_true, if_false]

/-- Concrete instantiation of C6: one detected target face yields exactly one
swap-operator invocation and the stated final result. -/
theorem C6_witness :
    (composite swapEnv0.swapOp face0 img1 (swapEnv0.detect img1)).2 =
      (swapEnv0.detect img1).length ∧
    swap_face swapEnv0 img1 img1 (4/5) true = .ok (finalBlend img1
      (compositedResult swapEnv0 face0 img1 (swapEnv0.detect img1) true) (4/5)) :=
  ⟨(C6_multi_face_compositing swapEnv0 img1 img1 (4/5) true face0 [] face0 []
      rfl rfl).1,
   (C6_multi_face_compositing swapEnv0 img1 img1 (4/5) true face0 [] face0 []
      rfl rfl).2.2⟩

/-- Claim C9: a face whose clipped box is degenerate (zero width or height)
or whose region is empty leaves the running result untouched and raises
nothing (the step is a total function returning its input), and the loop
continues with the remaining faces. -/
theorem C9_degenerate_box_skipped (env : CCEnv) (swapped orig result : Image)
    (face : Face) (rest : List Face)
    (hdeg : (clipBbox orig face.bbox).x2 ≤ (clipBbox orig face.bbox).x1 ∨
      (clipBbox orig face.bbox).y2 ≤ (clipBbox orig face.bbox).y1 ∨
      (clipBbox orig face.bbox).regionSize = 0) :
    colorCorrectStep env swapped orig result face = result ∧
    apply_color_correction env swapped orig (face :: rest) =
      apply_color_correction env swapped orig rest := by
  have hstep : ∀ r, colorCorrectStep env swapped orig r face = r := by
    intro r
    rcases hdeg with h | h | h
    · simp [colorCorrectStep, h]
    · simp [colorCorrectStep, h]
    · by_cases hd : (clipBbox orig face.bbox).x2 ≤ (clipBbox orig face.bbox).x1 ∨
        (clipBbox orig face.bbox).y2 ≤ (clipBbox orig face.bbox).y1
      · simp [colorCorrectStep, hd]
      · simp [colorCorrectStep, hd, h]
  exact ⟨hstep result, by simp [apply_color_correction, hstep]⟩

/-- A face whose box clips to zero width on a 1 x 1 image. -/
def faceDeg : Face := ⟨⟨2, 2, 2, 5⟩, 1⟩

/-- Concrete instantiation of C9: the degenerate face is skipped and the
remaining faces are still processed. -/
theorem C9_witness :
    colorCorrectStep ccEnv0 img1 img1 img1 faceDeg = img1 ∧
    apply_color_correction ccEnv0 img1 img1 [faceDeg, face0] =
      apply_color_correction ccEnv0 img1 img1 [face0] :=
  C9_degenerate_box_skipped ccEnv0 img1 img1 img1 faceDeg [face0]
    (Or.inl (by decide))

/-- Exception raised by an external cv2/GFPGAN call. -/
inductive CVErr
  | err
deriving DecidableEq

/-- Environment of external operators consumed by `FaceRestoration`:
`cv2.fastNlMeansDenoisingColored` (with its integer strength),
`_enhance_details`' LAB/CLAHE pipeline, `cv2.GaussianBlur` at sigma 2.0, and
`self.gfpgan.enhance` (returning `None` or a restored image, or raising). -/
structure RestEnv where
  fastNlMeans : Image → Nat → Except CVErr Image
  enhanceDetails : Image → Except CVErr Image
  gaussianBlur : Image → Except CVErr Image
  gfpganEnhance : Image → ℚ → Except CVErr (Option Image)

/-- Python's `int()` on a rational: truncation toward zero. -/
def pyInt (q : ℚ) : Int :=
  if 0 ≤ q then ⌊q⌋ else -⌊-q⌋

/-- The channel permutation performed by `cv2.cvtColor` for
`COLOR_RGB2BGR` and `COLOR_BGR2RGB` (swap channels 0 and 2). -/
def bgrFlip (c : Fin 3) : Fin 3 := ⟨2 - c.val, by omega⟩

def channelSwap (img : Image) : Image :=
  ⟨img.h, img.w, fun i j c => img.px i j (bgrFlip c)⟩

/-- `FaceRestoration._restore_with_gfpgan`: convert to BGR, call
`gfpgan.enhance` with `weight=strength`; on a non-`None` result convert back
to RGB; on `None` keep the original; on an exception, catch it and return the
original image. -/
def restore_with_gfpgan (env : RestEnv) (img : Image) (strength : ℚ) : Image :=
  match env.gfpganEnhance (channelSwap img) strength with
  | .ok (some restored) => channelSwap restored
  | .ok none => img
  | .error _ => img

/-- `FaceRestoration._denoise`: strength `h = int(level * 10)`; return the
image unchanged when `h < 1`, else run the denoise filter with strength `h`. -/
def denoiseFilter (env : RestEnv) (img : Image) (level : ℚ) :
    Except CVErr Image :=
  let hn := pyInt (level * 10)
  if hn < 1 then .ok img else env.fastNlMeans img hn.toNat

/-- The denoise stage of `restore`'s classical path: `_denoise` is called
only when `denoise_level > 0`. -/
def denoiseStage (env : RestEnv) (img : Image) (denoise_level : ℚ) :
    Except CVErr Image :=
  if 0 < denoise_level then denoiseFilter env img denoise_level else .ok img

/-- The detail-enhancement stage: `_enhance_details` is called only when
`enhance_details` is set. -/
def enhanceStage (env : RestEnv) (img : Image) (enhance_details : Bool) :
    Except CVErr Image :=
  if enhance_details then env.enhanceDetails img else .ok img

/-- `FaceRestoration._sharpen`: unsharp masking,
`cv2.addWeighted(img, 1 + amount, GaussianBlur(img), -amount, 0)`. -/
def sharpenFilter (env : RestEnv) (img : Image) (amount : ℚ) :
    Except CVErr Image :=
  (env.gaussianBlur img).map (fun g => addWeighted img (1 + amount) g (-amount) 0)

/-- The sharpen stage: `_sharpen` is called only when `sharpen_amount > 0`. -/
def sharpenStage (env : RestEnv) (img : Image) (sharpen_amount : ℚ) :
    Except CVErr Image :=
  if 0 < sharpen_amount then sharpenFilter env img sharpen_amount else .ok img

/-- The classical path's final opacity mix:
`cv2.addWeighted(img, 1 - strength, result, strength, 0)`, applied only when
`strength < 1.0`. -/
def strengthMix (img result : Image) (strength : ℚ) : Image :=
  if strength < 1 then addWeighted img (1 - strength) result strength 0
  else result

/-- `FaceRestoration.restore`: with a GFPGAN handle, the model path (no
strength mix afterwards); without one, the classical path — denoise, detail
enhancement and sharpening each behind their own gate, then the strength
mix.  Classical-stage exceptions are uncaught and propagate (the outer
handler logs and re-raises). -/
def restore (gfpgan : Option Handle) (env : RestEnv) (img : Image)
    (strength denoise_level sharpen_amount : ℚ) (enhance_details : Bool) :
    Except CVErr Image :=
  match gfpgan with
  | some _ => .ok (restore_with_gfpgan env img strength)
  | none =>
    match denoiseStage env img denoise_level with
    | .error e => .error e
    | .ok r1 =>
      match enhanceStage env r1 enhance_details with
      | .error e => .error e
      | .ok r2 =>
        match sharpenStage env r2 sharpen_amount with
        | .error e => .error e
        | .ok r3 => .ok (strengthMix img r3 strength)

/-- Claim C3: a restorer whose load fails yields the `None` sentinel from the
manager, not an error; `restore` without a handle still returns (never
errors, given the classical operators behave as cv2 contracts promise:
succeed and preserve shape) an image of the input's shape via the classical
path; for the detector and the swapper, exhausting the cascade produces an
error. -/
theorem C3_restorer_unavailable_non_fatal (env : LoadEnv) (renv : RestEnv)
    (img : Image) (strength denoise_level sharpen_amount : ℚ)
    (enhance_details : Bool)
    (hgf : env.gf = .error ())
    (hden : ∀ n i, ∃ r, renv.fastNlMeans i n = .ok r ∧ r.h = i.h ∧ r.w = i.w)
    (henh : ∀ i, ∃ r, renv.enhanceDetails i = .ok r ∧ r.h = i.h ∧ r.w = i.w)
    (hblur : ∀ i, ∃ r, renv.gaussianBlur i = .ok r ∧ r.h = i.h ∧ r.w = i.w) :
    (get_gfpgan_restorer env MMState.init).1 = none ∧
    (∃ out, restore none renv img strength denoise_level sharpen_amount
        enhance_details = .ok out ∧ out.h = img.h ∧ out.w = img.w) ∧
    (∀ fenv : FaEnv, (∃ k, fenv.stage1 = .error k) →
      (∃ e, fenv.stage2assert = .error e) → (∃ e, fenv.stage2other = .error e) →
      ∀ d, (loadFaceAnalysis d fenv).1 = .error ()) ∧
    (∀ senv : SwEnv, (∃ e, senv.stage1 = .error e) →
      (∃ e, senv.stage2 = .error e) → (∃ e, senv.stage3 = .error e) →
      (loadFaceSwapper senv).1 = .error ()) := by
  refine ⟨?_, ?_, ?_, ?_⟩
  · simp [get_gfpgan_restorer, MMState.init, hgf]
  · obtain ⟨r1, hr1, hr1h, hr1w⟩ :
        ∃ r1, denoiseStage renv img denoise_level = .ok r1 ∧
          r1.h = img.h ∧ r1.w = img.w := by
      unfold denoiseStage denoiseFilter
      by_cases h0 : 0 < denoise_level
      · by_cases h1 : pyInt (denoise_level * 10) < 1
        · exact ⟨img, by simp [h0, h1], rfl, rfl⟩
        · obtain ⟨r, hr, hh, hw⟩ := hden (pyInt (denoise_level * 10)).toNat img
          exact ⟨r, by simp [h0, h1, hr], hh, hw⟩
      · exact ⟨img, by simp [h0], rfl, rfl⟩
    obtain ⟨r2, hr2, hr2h, hr2w⟩ :
        ∃ r2, enhanceStage renv r1 enhance_details = .ok r2 ∧
          r2.h = r1.h ∧ r2.w = r1.w := by
      cases enhance_details
      · exact ⟨r1, by simp [enhanceStage], rfl, rfl⟩
      · obtain ⟨r, hr, hh, hw⟩ := henh r1
        exact ⟨r, by simp [enhanceStage, hr], hh, hw⟩
    obtain ⟨r3, hr3, hr3h, hr3w⟩ :
        ∃ r3, sharpenStage renv r2 sharpen_amount = .ok r3 ∧
          r3.h = r2.h ∧ r3.w = r2.w := by
      by_cases h0 : 0 < sharpen_amount
      · obtain ⟨g, hg, _, _⟩ := hblur r2
        exact ⟨addWeighted r2 (1 + sharpen_amount) g (-sharpen_amount) 0,
          by simp [sharpenStage, sharpenFilter, h0, hg, Except.map], rfl, rfl⟩
      · exact ⟨r2, by simp [sharpenStage, h0], rfl, rfl⟩
    refine ⟨strengthMix img r3 strength, by simp [restore, hr1, hr2, hr3], ?_, ?_⟩
    · unfold strengthMix
      by_cases hs : strength < 1
      · simp [hs, addWeighted]
      · simp only [hs, if_false]
        omega
    · unfold strengthMix
      by_cases hs : strength < 1
      · simp [hs, addWeighted]
      · simp only [hs, if_false]
        omega
  · rintro fenv ⟨k, h1⟩ ⟨e2, h2⟩ ⟨e3, h3⟩ d
    cases k <;> simp [loadFaceAnalysis, h1, h2, h3]
  · rintro senv ⟨e1, h1⟩ ⟨e2, h2⟩ ⟨e3, h3⟩
    cases hle : senv.localExists <;> simp [loadFaceSwapper, h1, h2, h3, hle]

/-- Classical operators that succeed and return their input unchanged, with
the GFPGAN operator reporting "no output". -/
def idRestEnv : RestEnv :=
  ⟨fun i _ => .ok i, fun i => .ok i, fun i => .ok i, fun _ _ => .ok none⟩

/-- At `denoise_level = 0.3` the denoise gate opens and the filter strength
truncates to 3, so the stage is exactly the denoise operator at strength 3. -/
theorem denoiseStage_at_three_tenths (renv : RestEnv) (img : Image) :
    denoiseStage renv img (3/10) = renv.fastNlMeans img 3 := by
  unfold denoiseStage denoiseFilter
  rw [if_pos (by norm_num)]
  have h : pyInt ((3/10 : ℚ) * 10) = 3 := by
    unfold pyInt
    norm_num
  rw [h]
  norm_num
  rfl

/-- At `denoise_level = 0.05` the filter strength truncates to 0 and the
stage returns its input. -/
theorem denoiseStage_at_one_twentieth (renv : RestEnv) (img : Image) :
    denoiseStage renv img (1/20) = .ok img := by
  unfold denoiseStage denoiseFilter
  rw [if_pos (by norm_num)]
  have h : pyInt ((1/20 : ℚ) * 10) = 0 := by
    unfold pyInt
    norm_num
  rw [h]
  norm_num

/-- At `sharpen_amount = 0.2` the sharpen gate opens and the stage is the
unsharp mask over the Gaussian blur. -/
theorem sharpenStage_at_one_fifth (renv : RestEnv) (img : Image) :
    sharpenStage renv img (1/5) =
      (renv.gaussianBlur img).map
        (fun g => addWeighted img (1 + 1/5) g (-(1/5)) 0) := by
  unfold sharpenStage sharpenFilter
  rw [if_pos (by norm_num)]

/-- Concrete instantiation of C3: a failing restorer load yields the `None`
sentinel, the classical path still returns an image, and exhausted cascades
for detector and swapper yield errors. -/
theorem C3_witness :
    (get_gfpgan_restorer c1FailEnv MMState.init).1 = none ∧
    restore none idRestEnv img1 1 (1/20) 0 false = .ok img1 ∧
    (loadFaceAnalysis .cpu ⟨.error .assertion, .error (), .error ()⟩).1 =
      .error () ∧
    (loadFaceSwapper ⟨.error (), .error (), true, .error ()⟩).1 = .error () := by
  have h := C3_restorer_unavailable_non_fatal c1FailEnv idRestEnv img1 1 (1/20)
    0 false rfl (fun n i => ⟨i, rfl, rfl, rfl⟩) (fun i => ⟨i, rfl, rfl, rfl⟩)
    (fun i => ⟨i, rfl, rfl, rfl⟩)
  refine ⟨h.1, ?_, ?_, ?_⟩
  · simp only [restore]
    rw [denoiseStage_at_one_twentieth idRestEnv img1]
    simp [enhanceStage, sharpenStage, strengthMix]
  · exact h.2.2.1 ⟨.error .assertion, .error (), .error ()⟩ ⟨.assertion, rfl⟩
      ⟨(), rfl⟩ ⟨(), rfl⟩ .cpu
  · exact h.2.2.2 ⟨.error (), .error (), true, .error ()⟩ ⟨(), rfl⟩ ⟨(), rfl⟩
      ⟨(), rfl⟩

/-- Claim C7 (amended): on the classical path every stage's exception
propagates out of `restore`; on the model path the documented `None`-output
soft case keeps the original — but an exception from the GFPGAN operator is
also caught inside `_restore_with_gfpgan` and the original image is returned
instead of propagating. -/
theorem C7_failure_propagation (renv : RestEnv) (img : Image)
    (strength denoise_level sharpen_amount : ℚ) (enhance_details : Bool) :
    (∀ e, denoiseStage renv img denoise_level = .error e →
      restore none renv img strength denoise_level sharpen_amount
        enhance_details = .error e) ∧
    (∀ r1 e, denoiseStage renv img denoise_level = .ok r1 →
      enhanceStage renv r1 enhance_details = .error e →
      restore none renv img strength denoise_level sharpen_amount
        enhance_details = .error e) ∧
    (∀ r1 r2 e, denoiseStage renv img denoise_level = .ok r1 →
      enhanceStage renv r1 enhance_details = .ok r2 →
      sharpenStage renv r2 sharpen_amount = .error e →
      restore none renv img strength denoise_level sharpen_amount
        enhance_details = .error e) ∧
    (∀ hnd : Handle, renv.gfpganEnhance (channelSwap img) strength = .ok none →
      restore (some hnd) renv img strength denoise_level sharpen_amount
        enhance_details = .ok img) ∧
    (∀ (hnd : Handle) e,
      renv.gfpganEnhance (channelSwap img) strength = .error e →
      restore (some hnd) renv img strength denoise_level sharpen_amount
        enhance_details = .ok img) := by
  refine ⟨?_, ?_, ?_, ?_, ?_⟩
  · intro e h
    simp [restore, h]
  · intro r1 e h1 h2
    simp [restore, h1, h2]
  · intro r1 r2 e h1 h2 h3
    simp [restore, h1, h2, h3]
  · intro hnd h
    simp [restore, restore_with_gfpgan, h]
  · intro hnd e h
    simp [restore, restore_with_gfpgan, h]

/-- Classical operators fine, GFPGAN operator raising. -/
def gfpganRaisesEnv : RestEnv :=
  ⟨fun i _ => .ok i, fun i => .ok i, fun i => .ok i, fun _ _ => .error .err⟩

/-- Claim C7 counterexample: the GFPGAN handle is present and the operator
raises, yet `restore` returns the original image successfully instead of
propagating the exception — `_restore_with_gfpgan` catches it. -/
theorem C7_counterexample :
    restore (some ⟨9⟩) gfpganRaisesEnv img1 (1/2) (3/10) (1/5) true =
      .ok img1 := rfl

/-- Denoise operator raising; the other operators fine. -/
def denoiseFailEnv : RestEnv :=
  ⟨fun _ _ => .error .err, fun i => .ok i, fun i => .ok i, fun _ _ => .ok none⟩

/-- Detail-enhancement operator raising; the other operators fine. -/
def enhanceFailEnv : RestEnv :=
  ⟨fun i _ => .ok i, fun _ => .error .err, fun i => .ok i, fun _ _ => .ok none⟩

/-- Gaussian blur (inside `_sharpen`) raising; the other operators fine. -/
def blurFailEnv : RestEnv :=
  ⟨fun i _ => .ok i, fun i => .ok i, fun _ => .error .err, fun _ _ => .ok none⟩

/-- Concrete instantiation of the amended C7: each classical stage's
exception propagates; the model path's `None` output and caught exception
both keep the original. -/
theorem C7_witness :
    restore none denoiseFailEnv img1 (1/2) (3/10) (1/5) true = .error .err ∧
    restore none enhanceFailEnv img1 (1/2) (3/10) (1/5) true = .error .err ∧
    restore none blurFailEnv img1 (1/2) (3/10) (1/5) true = .error .err ∧
    restore (some ⟨9⟩) idRestEnv img1 (1/2) (3/10) (1/5) true = .ok img1 ∧
    restore (some ⟨9⟩) gfpganRaisesEnv img1 (1/2) (3/10) (1/5) true =
      .ok img1 := by
  refine ⟨?_, ?_, ?_, ?_, ?_⟩
  · exact (C7_failure_propagation denoiseFailEnv img1 (1/2) (3/10) (1/5)
      true).1 .err ((denoiseStage_at_three_tenths denoiseFailEnv img1).trans rfl)
  · exact (C7_failure_propagation enhanceFailEnv img1 (1/2) (3/10) (1/5)
      true).2.1 img1 .err
      ((denoiseStage_at_three_tenths enhanceFailEnv img1).trans rfl) rfl
  · exact (C7_failure_propagation blurFailEnv img1 (1/2) (3/10) (1/5)
      true).2.2.1 img1 img1 .err
      ((denoiseStage_at_three_tenths blurFailEnv img1).trans rfl) rfl
      ((sharpenStage_at_one_fifth blurFailEnv img1).trans rfl)
  · exact (C7_failure_propagation idRestEnv img1 (1/2) (3/10) (1/5)
      true).2.2.2.1 ⟨9⟩ rfl
  · exact (C7_failure_propagation gfpganRaisesEnv img1 (1/2) (3/10) (1/5)
      true).2.2.2.2 ⟨9⟩ .err rfl

/-- Claim C10: on the classical path the denoise stage is a no-op for every
`denoise_level < 0.1`, not only for nonpositive levels: the filter strength
`int(denoise_level * 10)` truncates below 1 and `_denoise` returns its input
unchanged. -/
theorem C10_denoise_noop_below_tenth (renv : RestEnv) (img : Image)
    (level : ℚ) (hlt : level < 1/10) :
    pyInt (level * 10) < 1 ∧ denoiseStage renv img level = .ok img := by
  have hp : pyInt (level * 10) < 1 := by
    unfold pyInt
    by_cases h0 : 0 ≤ level * 10
    · simp only [h0, if_true]
      rw [Int.floor_lt]
      push_cast
      linarith
    · simp only [h0, if_false]
      have hn : 0 ≤ ⌊-(level * 10)⌋ := Int.floor_nonneg.mpr (by linarith [not_le.mp h0])
      omega
  refine ⟨hp, ?_⟩
  unfold denoiseStage
  by_cases h0 : 0 < level
  · simp only [h0, if_true]
    unfold denoiseFilter
    simp [hp]
  · simp [h0]

/-- Concrete instantiation of C10: `denoise_level = 0.05` leaves the image
unchanged by the denoise stage. -/
theorem C10_witness :
    (1 : ℚ)/20 < 1/10 ∧ denoiseStage idRestEnv img1 (1/20) = .ok img1 :=
  ⟨by norm_num,
   (C10_denoise_noop_below_tenth idRestEnv img1 (1/20) (by norm_num)).2⟩

end DeepfakeLivecam
